import Mathlib

/-!
Shallow embedding of `src/weather.py` (an MCP weather server) and proofs
about it.  JSON values are modelled by an inductive `Json` with rational
numbers standing for Python's numbers; Python dictionary operations
(`d[k]`, `d.get(k)`, `d.get(k, default)`, `k in d`, `len`, truthiness)
are modelled by total functions into `Except String _`, where a `.error`
models an uncaught Python exception (`KeyError`, `TypeError`,
`AttributeError`, ...).  Each `async` function of the source becomes a
function in the monad `W α = Except String α × List String`: the second
component is the trace of HTTP requests attempted, in order, so that
"performs no network call" is expressible.  The network itself is a
parameter `Net = String → Option Json`: `none` collapses every failure
of `make_nws_request` / of the geocoding request (transport error,
timeout, non-2xx status, unparsable body), exactly as the source
collapses them all to `None`.
-/

set_option maxRecDepth 65536

namespace Weather

/-- Exact rational numbers as unnormalized fractions `num / den`.  Every
number the program touches is an exact decimal, so rationals model the
arithmetic faithfully; this fraction type (rather than `ℚ`) keeps every
operation a plain integer computation, so concrete runs of the embedded
program reduce inside the kernel.  Every value the program builds has a
positive denominator; `toRat` ties the type to `ℚ` where a claim speaks
about real ranges. -/
structure Q where
  num : ℤ
  den : ℕ
deriving DecidableEq

instance (n : ℕ) : OfNat Q n := ⟨⟨(n : ℤ), 1⟩⟩

instance : OfScientific Q :=
  ⟨fun m b e => if b then ⟨(m : ℤ), 10 ^ e⟩ else ⟨(m : ℤ) * 10 ^ e, 1⟩⟩

instance : Neg Q := ⟨fun a => ⟨-a.num, a.den⟩⟩

instance : Add Q := ⟨fun a b => ⟨a.num * b.den + b.num * a.den, a.den * b.den⟩⟩

instance : Sub Q := ⟨fun a b => ⟨a.num * b.den - b.num * a.den, a.den * b.den⟩⟩

instance : Mul Q := ⟨fun a b => ⟨a.num * b.num, a.den * b.den⟩⟩

/-- Reciprocal (the program only ever divides by nonzero constants). -/
def Q.inv (b : Q) : Q :=
  if b.num < 0 then ⟨-(b.den : ℤ), b.num.natAbs⟩ else ⟨(b.den : ℤ), b.num.natAbs⟩

instance : Div Q := ⟨fun a b => a * b.inv⟩

instance : LE Q := ⟨fun a b => a.num * (b.den : ℤ) ≤ b.num * (a.den : ℤ)⟩

instance : LT Q := ⟨fun a b => a.num * (b.den : ℤ) < b.num * (a.den : ℤ)⟩

instance : DecidableRel (· ≤ · : Q → Q → Prop) := fun a b =>
  inferInstanceAs (Decidable (a.num * (b.den : ℤ) ≤ b.num * (a.den : ℤ)))

instance : DecidableRel (· < · : Q → Q → Prop) := fun a b =>
  inferInstanceAs (Decidable (a.num * (b.den : ℤ) < b.num * (a.den : ℤ)))

/-- Absolute value. -/
def Q.abs (a : Q) : Q := ⟨(a.num.natAbs : ℤ), a.den⟩

/-- Multiplication by `10 ^ d`. -/
def Q.mulPow10 (a : Q) (d : ℕ) : Q := ⟨a.num * (10 : ℤ) ^ d, a.den⟩

/-- Division by `10 ^ d`. -/
def Q.divPow10 (a : Q) (d : ℕ) : Q := ⟨a.num, a.den * 10 ^ d⟩

/-- Whether the value is zero. -/
def Q.isZero (a : Q) : Bool := a.num = 0

/-- Whether the value is an integer. -/
def Q.isInt (a : Q) : Bool := a.num % (a.den : ℤ) = 0

/-- The floor `⌊num/den⌋` (for positive denominators). -/
def Q.floor (a : Q) : ℤ := Int.fdiv a.num (a.den : ℤ)

/-- The rational value of a fraction. -/
def toRat (a : Q) : ℚ := (a.num : ℚ) / (a.den : ℚ)

/-- JSON values (and, via `null`, Python's `None`).  Numbers are modelled
by the exact fraction type `Q`: every literal the claims mention is an
exact decimal. -/
inductive Json where
  | null
  | bool (b : Bool)
  | num (q : Q)
  | str (s : String)
  | arr (xs : List Json)
  | obj (kvs : List (String × Json))

/-- First value bound to key `k` (JSON objects from the wire have distinct
keys). -/
def lookupKV (kvs : List (String × Json)) (k : String) : Option Json :=
  match kvs with
  | [] => none
  | (k2, v) :: rest => if k2 = k then some v else lookupKV rest k

/-- `d[k] = v` for a dict: replace the binding of `k`, or append it. -/
def setKV (kvs : List (String × Json)) (k : String) (v : Json) :
    List (String × Json) :=
  match kvs with
  | [] => [(k, v)]
  | (k2, w) :: rest =>
      if k2 = k then (k2, v) :: rest else (k2, w) :: setKV rest k v

/-- Python truthiness of a JSON value (`bool(x)`). -/
def Json.falsy : Json → Bool
  | .null => true
  | .bool b => !b
  | .num q => q = 0
  | .str s => s = ""
  | .arr xs => xs.isEmpty
  | .obj kvs => kvs.isEmpty

/-- Truthiness of a Python value that may be `None` (`Option.none` models
Python's `None`). -/
def optFalsy : Option Json → Bool
  | none => true
  | some j => j.falsy

/-- Subscript `d[k]`: `KeyError` on a missing key, `TypeError` when the
value is not a dict (the source never subscripts lists by strings on a
reachable path; all non-dict cases raise in Python too). -/
def pySub (j : Json) (k : String) : Except String Json :=
  match j with
  | .obj kvs =>
      match lookupKV kvs k with
      | some v => .ok v
      | none => .error ("KeyError: " ++ k)
  | _ => .error "TypeError"

/-- One-argument `d.get(k)`.  A stored JSON `null` is Python's `None`, so
it is collapsed with the missing-key case: both give Python `None`,
modelled `Option.none`.  On a non-dict receiver `.get` raises
`AttributeError`. -/
def pyGetOpt (j : Json) (k : String) : Except String (Option Json) :=
  match j with
  | .obj kvs =>
      match lookupKV kvs k with
      | some .null => .ok none
      | some v => .ok (some v)
      | none => .ok none
  | _ => .error "AttributeError"

/-- Two-argument `d.get(k, default)`: the stored value (also when it is
`null`: Python returns the stored `None`, not the default), or the
default when the key is missing. -/
def pyGetD (j : Json) (k : String) (d : Json) : Except String Json :=
  match j with
  | .obj kvs =>
      match lookupKV kvs k with
      | some v => .ok v
      | none => .ok d
  | _ => .error "AttributeError"

/-- Whether `pat` is a prefix of `l`. -/
def isPrefixList : List Char → List Char → Bool
  | [], _ => true
  | _ :: _, [] => false
  | a :: as, b :: bs => a = b && isPrefixList as bs

/-- Whether `pat` occurs inside `l`. -/
def occurs (pat : List Char) : List Char → Bool
  | [] => isPrefixList pat []
  | c :: rest => isPrefixList pat (c :: rest) || occurs pat rest

/-- Whether the string `pat` occurs inside `s` (Python's `pat in s`). -/
def containsStr (s pat : String) : Bool := occurs pat.data s.data

/-- `k in d`.  For a dict: key membership.  For a list: `k` compares equal
only to string elements.  For a string: substring test.  Anything else
raises `TypeError`. -/
def pyHasKey (j : Json) (k : String) : Except String Bool :=
  match j with
  | .obj kvs => .ok (lookupKV kvs k).isSome
  | .arr xs => .ok (xs.any fun e => match e with | .str s => s = k | _ => false)
  | .str s => .ok (containsStr s k)
  | _ => .error "TypeError"

/-- `len(x)`: lists, strings and dicts have a length; numbers and `None`
raise `TypeError`. -/
def pyLen (j : Json) : Except String ℕ :=
  match j with
  | .arr xs => .ok xs.length
  | .str s => .ok s.length
  | .obj kvs => .ok kvs.length
  | _ => .error "TypeError"

/-- The list behind a JSON array; iterating or slicing anything else on
the source's paths ends in a `TypeError`/`AttributeError` (modelled as
one error). -/
def asList (j : Json) : Except String (List Json) :=
  match j with
  | .arr xs => .ok xs
  | _ => .error "TypeError"

/-- The rational behind a JSON number; arithmetic or `:.1f`-formatting of
any other value raises `TypeError` in Python. -/
def asNum (j : Json) : Except String Q :=
  match j with
  | .num q => .ok q
  | _ => .error "TypeError"

/-- `d[k] = v` as an expression; assignment on a non-dict raises. -/
def setKeyE (j : Json) (k : String) (v : Json) : Except String Json :=
  match j with
  | .obj kvs => .ok (.obj (setKV kvs k v))
  | _ => .error "TypeError"

/-- Least `d ≤ 30` with `q * 10^d` integral, if any: the decimal length of
a terminating fraction.  (30 is far beyond any value in the program.) -/
def decDigits (q : Q) : Option ℕ :=
  (List.range 31).find? fun d => (q.mulPow10 d).isInt

/-- Digits of `n` padded on the left with zeros to length at least `w`. -/
def padDigits (n : ℕ) (w : ℕ) : String :=
  let s := toString n
  ⟨List.replicate (w - s.length) '0'⟩ ++ s

/-- Decimal rendering of a rational with exactly `d` digits after the
point (no rounding: the caller guarantees `q * 10^d` is integral). -/
def decRender (q : Q) (d : ℕ) : String :=
  let n : ℤ := (q.mulPow10 d).num / ((q.mulPow10 d).den : ℤ)
  let digits := padDigits n.natAbs (d + 1)
  let cut := digits.length - d
  (if n < 0 then "-" else "") ++
    (digits.toList.take cut).asString ++ "." ++ (digits.toList.drop cut).asString

/-- `str(x)` for the numbers the program prints: integers print with no
point (NWS temperatures are JSON integers), terminating fractions print
in decimal, anything else falls back to `num/den` (unreachable on the
claims' inputs). -/
def qRender (q : Q) : String :=
  if q.isInt then toString (q.num / (q.den : ℤ))
  else
    match decDigits q with
    | some d => decRender q d
    | none => toString q.num ++ "/" ++ toString q.den

/-- Round to the nearest integer, ties to the even integer: the rounding
of Python's fixed-point formatting. -/
def roundHalfEven (x : Q) : ℤ :=
  let f : ℤ := x.floor
  let r : Q := x - ⟨f, 1⟩
  if r < (⟨1, 2⟩ : Q) then f
  else if (⟨1, 2⟩ : Q) < r then f + 1
  else if f % 2 = 0 then f else f + 1

/-- Python's `f"{x:.df}"` on the exact rational `x`. -/
def fmtFixed (x : Q) (d : ℕ) : String :=
  let z := roundHalfEven (x.mulPow10 d)
  if d = 0 then toString z
  else
    let digits := padDigits z.natAbs (d + 1)
    let cut := digits.length - d
    (if z < 0 then "-" else "") ++
      (digits.toList.take cut).asString ++ "." ++ (digits.toList.drop cut).asString

/-- `str(x)` as used in the source's f-strings.  Containers never reach an
f-string on the claims' inputs; they get a fixed placeholder. -/
def pyStr : Json → String
  | .null => "None"
  | .bool b => if b then "True" else "False"
  | .num q => qRender q
  | .str s => s
  | .arr _ => "<list>"
  | .obj _ => "<dict>"

/-- `f"{x:<n}"`: pad printable values on the right with spaces;
`None`/containers raise `TypeError` under a format spec. -/
def padFmt (j : Json) (n : ℕ) : Except String String :=
  match j with
  | .str s => .ok (s ++ ⟨List.replicate (n - s.length) ' '⟩)
  | .num q => .ok (qRender q ++ ⟨List.replicate (n - (qRender q).length) ' '⟩)
  | .bool b =>
      let s := if b then "True" else "False"
      .ok (s ++ ⟨List.replicate (n - s.length) ' '⟩)
  | _ => .error "TypeError"

/-- `f"{s:<n}"` for an ordinary string. -/
def padStr (s : String) (n : ℕ) : String :=
  s ++ ⟨List.replicate (n - s.length) ' '⟩

/-- `s.strip()` on a list of characters. -/
def stripChars (l : List Char) : List Char :=
  ((l.dropWhile Char.isWhitespace).reverse.dropWhile Char.isWhitespace).reverse

/-- Python `s.strip()`. -/
def pyStrip (s : String) : String := ⟨stripChars s.data⟩

/-- Python `s.upper()` (the program only feeds it ASCII state codes). -/
def pyUpper (s : String) : String := ⟨s.data.map Char.toUpper⟩

/-- `US_STATES` (weather.py line 14): the 50 states plus DC. -/
def US_STATES : List String :=
  ["AL", "AK", "AZ", "AR", "CA", "CO", "CT", "DE", "FL", "GA",
   "HI", "ID", "IL", "IN", "IA", "KS", "KY", "LA", "ME", "MD",
   "MA", "MI", "MN", "MS", "MO", "MT", "NE", "NV", "NH", "NJ",
   "NM", "NY", "NC", "ND", "OH", "OK", "OR", "PA", "RI", "SC",
   "SD", "TN", "TX", "UT", "VT", "VA", "WA", "WV", "WI", "WY", "DC"]

/-- `validate_state_code` (line 23): `state.upper() in US_STATES`. -/
def validate_state_code (state : String) : Bool :=
  US_STATES.contains (pyUpper state)

/-- `validate_coordinates` (line 28):
`-90 <= latitude <= 90 and -180 <= longitude <= 180`. -/
def validate_coordinates (latitude longitude : Q) : Bool :=
  decide (-90 ≤ latitude) && decide (latitude ≤ 90) &&
    decide (-180 ≤ longitude) && decide (longitude ≤ 180)

/-- Python `s.split(",")` over the characters of `s`:
`"".split(",") == [""]`, `",".split(",") == ["", ""]`. -/
def splitOnComma (l : List Char) : List (List Char) :=
  match l with
  | [] => [[]]
  | c :: rest =>
      let r := splitOnComma rest
      if c = ',' then [] :: r
      else
        match r with
        | [] => [[c]]
        | h :: t => (c :: h) :: t

/-- Value of a decimal digit character, if it is one. -/
def digitVal (c : Char) : Option ℕ :=
  if '0' ≤ c ∧ c ≤ '9' then some (c.toNat - '0'.toNat) else none

/-- The natural number a digit string denotes. -/
def digitsToNat (l : List Char) : ℕ :=
  l.foldl (fun acc c => acc * 10 + (c.toNat - '0'.toNat)) 0

/-- Whether every character is a decimal digit. -/
def allDigits (l : List Char) : Bool :=
  l.all fun c => decide ('0' ≤ c) && decide (c ≤ '9')

/-- Mantissa parse: `digits [. digits]` with at least one digit overall;
returns (numerator digits, number of fractional digits). -/
def parseMantissa (l : List Char) : Option (List Char × ℕ) :=
  match l.splitOn '.' with
  | [d] => if d ≠ [] ∧ allDigits d then some (d, 0) else none
  | [d, f] =>
      if (d ≠ [] ∨ f ≠ []) ∧ allDigits d ∧ allDigits f then
        some (d ++ f, f.length)
      else none
  | _ => none

/-- Optional leading sign: (negative?, rest). -/
def parseSign (l : List Char) : Bool × List Char :=
  match l with
  | '-' :: rest => (true, rest)
  | '+' :: rest => (false, rest)
  | _ => (false, l)

/-- Python's `float(s)` on the finite-decimal fragment it accepts:
optional sign, digits with an optional point, an optional `e`/`E`
exponent.  (`inf`, `nan`, underscores and hex floats are outside the
model; no input of the program's documented shapes uses them, and the
program's own behaviour is stated relative to this parse.) -/
def pyFloat (l : List Char) : Option Q :=
  let (neg, l1) := parseSign l
  let (mant, expPart) :=
    match l1.splitOn 'e' with
    | [m] =>
        match l1.splitOn 'E' with
        | [m2] => (m2, none)
        | [m2, e2] => (m2, some e2)
        | _ => (m, some ['x'])
    | [m, e] => (m, some e)
    | _ => (l1, some ['x'])
  match parseMantissa mant with
  | none => none
  | some (digs, frac) =>
      let base : Q := Q.divPow10 ⟨(digitsToNat digs : ℤ), 1⟩ frac
      let signed := if neg then -base else base
      match expPart with
      | none => some signed
      | some e =>
          let (eneg, edigs) := parseSign e
          if edigs ≠ [] ∧ allDigits edigs then
            some (if eneg then signed.divPow10 (digitsToNat edigs)
                  else signed.mulPow10 (digitsToNat edigs))
          else none

/-- `parse_location` (weather.py line 303, local to `compare_weather`):
split on comma; only a two-part split whose stripped parts both parse as
floats and pass `validate_coordinates` is a coordinate pair; everything
else is a place name (`None`). -/
def parse_location (loc : String) : Option (Q × Q) :=
  let l := loc.data
  if l.contains ',' then
    match splitOnComma l with
    | [p1, p2] =>
        match pyFloat (stripChars p1), pyFloat (stripChars p2) with
        | some lat, some lon =>
            if validate_coordinates lat lon then some (lat, lon) else none
        | _, _ => none
    | _ => none
  else none

/-! ### The effect monad

`W α`: the result of running a tool body — either a value or an uncaught
Python exception — together with the ordered trace of HTTP requests it
attempted. -/

/-- Result-with-request-trace monad. -/
abbrev W (α : Type) : Type := Except String α × List String

instance : Monad W where
  pure a := (.ok a, [])
  bind x f :=
    match x with
    | (.error e, t) => (.error e, t)
    | (.ok a, t) =>
        match f a with
        | (r, t2) => (r, t ++ t2)

/-- `raise` in a tool body. -/
def thr {α : Type} (e : String) : W α := (.error e, [])

/-- Run a pure dictionary operation inside a tool body: its exception
propagates. -/
def liftE {α : Type} (x : Except String α) : W α := (x, [])

/-- The network: what each URL's fetch produces.  `none` stands for every
failure `make_nws_request` (weather.py line 73) collapses — connection
errors, timeouts, every non-2xx status, an unparsable body. -/
def Net : Type := String → Option Json

/-- `make_nws_request(url)` where `url` is whatever object the caller
passed: a non-string URL makes `client.get` raise inside the `try`, which
the function catches and turns into `None` without any request going
out. -/
def fetchNws (net : Net) (url : Json) : W (Option Json) :=
  match url with
  | .str s => (.ok (net s), [s])
  | _ => (.ok none, [])

def NWS_API_BASE : String := "https://api.weather.gov"

/-- `f"{NWS_API_BASE}/points/{latitude},{longitude}"`. -/
def pointsUrl (latitude longitude : Q) : String :=
  NWS_API_BASE ++ "/points/" ++ qRender latitude ++ "," ++ qRender longitude

/-- `f"{NWS_API_BASE}/alerts/active/area/{state}"`. -/
def alertsUrl (state : String) : String :=
  NWS_API_BASE ++ "/alerts/active/area/" ++ state

/-- `result.get("country_code") == "US"`. -/
def ccIsUS (cc : Option Json) : Bool :=
  match cc with
  | some (.str s) => s = "US"
  | _ => false

/-- The `for result in data["results"]` loop of `geocode_location`
(line 59): return the first result whose `country_code` equals `"US"`. -/
def geoFindUS : List Json → Except String (Option (Json × Json))
  | [] => .ok none
  | r :: rest => do
      let cc ← pyGetOpt r "country_code"
      if ccIsUS cc then do
        let la ← pySub r "latitude"
        let lo ← pySub r "longitude"
        pure (some (la, lo))
      else geoFindUS rest

/-- Body of the `try` in `geocode_location` after a successful fetch
(lines 57-66); any exception it raises is caught by the enclosing
`except` clauses. -/
def geocodeBody (data : Json) : Except String (Option (Json × Json)) := do
  let r ← pyGetOpt data "results"
  match r with
  | none => pure none
  | some rv =>
      if rv.falsy then pure none
      else do
        let n ← pyLen rv
        if 0 < n then do
          let xs ← asList rv
          match ← geoFindUS xs with
          | some p => pure (some p)
          | none =>
              match xs with
              | [] => .error "IndexError"
              | r0 :: _ => do
                  let la ← pySub r0 "latitude"
                  let lo ← pySub r0 "longitude"
                  pure (some (la, lo))
        else pure none

/-- `geocode_location(city_name)` (line 33).  The geocoding service is its
own oracle `geoNet`; its request is traced as `"GEOCODE:" ++ city`.  The
whole body sits in a `try` whose handlers return `None`, so a failed
fetch and any exception in the body both yield `None`. -/
def geocode_location (geoNet : Net) (city_name : String) :
    W (Option (Json × Json)) :=
  ((.ok (match geoNet city_name with
         | none => none
         | some data =>
             match geocodeBody data with
             | .ok v => v
             | .error _ => none)),
   ["GEOCODE:" ++ city_name])

/-- `format_alert(feature)` (line 93). -/
def format_alert (feature : Json) : Except String String := do
  let props ← pySub feature "properties"
  let ev ← pyGetD props "event" (.str "Unknown")
  let ar ← pyGetD props "areaDesc" (.str "Unknown")
  let sev ← pyGetD props "severity" (.str "Unknown")
  let de ← pyGetD props "description" (.str "No description available")
  let ins ← pyGetD props "instruction" (.str "No specific instructions provided")
  pure ("\nEvent: " ++ pyStr ev ++ "\nArea: " ++ pyStr ar ++
        "\nSeverity: " ++ pyStr sev ++ "\nDescription: " ++ pyStr de ++
        "\nInstructions: " ++ pyStr ins ++ "\n")

/-- `get_alerts(state)` (line 105). -/
def get_alerts (net : Net) (state0 : String) : W String := do
  let state := pyStrip (pyUpper state0)
  if !validate_state_code state then
    pure ("Error: '" ++ state ++ "' is not a valid US state code. Please use a 2-letter code (e.g., CA, NY, TX).")
  else do
    let data? ← fetchNws net (.str (alertsUrl state))
    let failMsg := "Unable to fetch alerts for " ++ state ++ ". The location may not be supported or the service is unavailable."
    match data? with
    | none => pure failMsg
    | some data =>
        if data.falsy then pure failMsg
        else do
          let hk ← liftE (pyHasKey data "features")
          if !hk then pure failMsg
          else do
            let feats ← liftE (pySub data "features")
            if feats.falsy then
              pure ("No active weather alerts for " ++ state ++ ".")
            else do
              let xs ← liftE (asList feats)
              let alerts ← liftE (xs.mapM format_alert)
              pure ("Weather Alerts for " ++ state ++ ":\n\n" ++
                    String.intercalate "\n---\n" alerts)

/-- `get_forecast_data(latitude, longitude)` (line 129): the all-or-
nothing bundle fetch.  Returns the forecast document with `_location`
added, or `None`. -/
def get_forecast_data (net : Net) (latitude longitude : Q) :
    W (Option Json) := do
  if !validate_coordinates latitude longitude then
    pure none
  else do
    let points? ← fetchNws net (.str (pointsUrl latitude longitude))
    match points? with
    | none => pure none
    | some pd =>
        if pd.falsy then pure none
        else do
          let hk ← liftE (pyHasKey pd "properties")
          if !hk then pure none
          else do
            let props ← liftE (pySub pd "properties")
            let furl ← liftE (pyGetOpt props "forecast")
            if optFalsy furl then pure none
            else do
              let fd? ← fetchNws net (furl.getD .null)
              match fd? with
              | none => pure none
              | some fd =>
                  if fd.falsy then pure none
                  else do
                    let hk2 ← liftE (pyHasKey fd "properties")
                    if !hk2 then pure none
                    else do
                      let props2 ← liftE (pySub pd "properties")
                      let rl ← liftE (pyGetD props2 "relativeLocation" (.obj []))
                      let rlp1 ← liftE (pyGetD rl "properties" (.obj []))
                      let city ← liftE (pyGetD rlp1 "city" (.str "Unknown"))
                      let rlp2 ← liftE (pyGetD rl "properties" (.obj []))
                      let st ← liftE (pyGetD rlp2 "state" (.str "Unknown"))
                      let fd2 ← liftE (setKeyE fd "_location"
                        (.obj [("city", city), ("state", st)]))
                      pure (some fd2)

/-- One forecast period block of `get_forecast` / `get_forecast_by_city`
(lines 180-187 and 217-224, identical templates), with the f-string's
fields evaluated in source order. -/
def renderPeriod (p : Json) : Except String String := do
  let nm ← pySub p "name"
  let t ← pySub p "temperature"
  let tu ← pySub p "temperatureUnit"
  let ws ← pySub p "windSpeed"
  let wd ← pySub p "windDirection"
  let rhC ← pyGetOpt p "relativeHumidity"
  let humLine ←
    if optFalsy rhC then pure ""
    else do
      let rh ← pyGetD p "relativeHumidity" (.obj [])
      let v ← pyGetD rh "value" (.str "N/A")
      pure ("Humidity: " ++ pyStr v ++ "%")
  let popC ← pyGetOpt p "probabilityOfPrecipitation"
  let popLine ←
    if optFalsy popC then pure ""
    else do
      let pp ← pyGetD p "probabilityOfPrecipitation" (.obj [])
      let v ← pyGetD pp "value" (.num 0)
      pure ("Precipitation: " ++ pyStr v ++ "%")
  let det ← pySub p "detailedForecast"
  pure ("\n" ++ pyStr nm ++ ":\n  Temperature: " ++ pyStr t ++ "°" ++
        pyStr tu ++ "\n  Wind: " ++ pyStr ws ++ " " ++ pyStr wd ++
        "\n  " ++ humLine ++ "\n  " ++ popLine ++
        "\n  Forecast: " ++ pyStr det ++ "\n")

/-- The shared success path of `get_forecast` (lines 174-190) and
`get_forecast_by_city` (lines 211-227): the two code blocks are
character-for-character identical except for the default city string
(`'Unknown'` vs `city_name`). -/
def forecastBody (fd : Json) (cityDefault : Json) : Except String String := do
  let props ← pySub fd "properties"
  let periods ← pySub props "periods"
  let loc ← pyGetD fd "_location" (.obj [])
  let city ← pyGetD loc "city" cityDefault
  let st ← pyGetD loc "state" (.str "Unknown")
  let ps ← asList periods
  let blocks ← (ps.take 10).mapM renderPeriod
  pure ("Weather Forecast for " ++ pyStr city ++ ", " ++ pyStr st ++ ":\n" ++
        String.intercalate "\n---\n" blocks)

/-- `get_forecast(latitude, longitude)` (line 158). -/
def get_forecast (net : Net) (latitude longitude : Q) : W String := do
  if !validate_coordinates latitude longitude then
    pure "Error: Invalid coordinates. Latitude must be between -90 and 90, longitude between -180 and 180."
  else do
    let fd? ← get_forecast_data net latitude longitude
    if optFalsy fd? then
      pure ("Unable to fetch forecast data for coordinates (" ++
            qRender latitude ++ ", " ++ qRender longitude ++
            "). The location may be outside NWS coverage area (US only).")
    else
      liftE (forecastBody (fd?.getD .null) (.str "Unknown"))

/-- `get_forecast_by_city(city_name)` (line 193).  A geocoded coordinate
is used as-is; a non-numeric geocoder value would raise `TypeError` in
`validate_coordinates`' comparisons, modelled at the unpacking. -/
def get_forecast_by_city (geoNet : Net) (net : Net) (city_name : String) :
    W String := do
  let coords? ← geocode_location geoNet city_name
  match coords? with
  | none =>
      pure ("Error: Could not find coordinates for '" ++ city_name ++
            "'. Please check the city name and try again.")
  | some (jla, jlo) =>
      match jla, jlo with
      | .num la, .num lo => do
          let fd? ← get_forecast_data net la lo
          if optFalsy fd? then
            pure ("Unable to fetch forecast data for " ++ city_name ++
                  ". The location may be outside NWS coverage area (US only).")
          else
            liftE (forecastBody (fd?.getD .null) (.str city_name))
      | _, _ => thr "TypeError"

/-- Observation assembly of `get_current_conditions` (lines 267-290):
field extraction, the unit conversions, and the result string.  Every
conversion (`t*9/5+32`, `w*2.237`, `p/100`, `v/1609.34`) is written
exactly as in the source and happens only in the arm where the source
value is present. -/
def currentBody (oprops : Json) (locStr : String) : Except String String := do
  let tD ← pyGetD oprops "temperature" (.obj [])
  let temp ← pyGetOpt tD "value"
  let tfu ←
    match temp with
    | none => pure (none : Option (Q × String))
    | some tv => do
        let t ← asNum tv
        pure (some (t * 9 / 5 + 32, "°F (" ++ fmtFixed t 1 ++ "°C)"))
  let dD ← pyGetD oprops "dewpoint" (.obj [])
  let dp ← pyGetOpt dD "value"
  let hD ← pyGetD oprops "relativeHumidity" (.obj [])
  let hum ← pyGetOpt hD "value"
  let wsD ← pyGetD oprops "windSpeed" (.obj [])
  let ws ← pyGetOpt wsD "value"
  let wdD ← pyGetD oprops "windDirection" (.obj [])
  let wd ← pyGetOpt wdD "value"
  let pD ← pyGetD oprops "barometricPressure" (.obj [])
  let pr ← pyGetOpt pD "value"
  let vD ← pyGetD oprops "visibility" (.obj [])
  let vis ← pyGetOpt vD "value"
  let td ← pyGetD oprops "textDescription" (.str "N/A")
  let tempLine :=
    match tfu with
    | some (tf, tu) => "Temperature: " ++ fmtFixed tf 1 ++ tu ++ "\n"
    | none => "Temperature: N/A\n"
  let humLine ←
    match hum with
    | some hv => do
        let h ← asNum hv
        pure ("Humidity: " ++ fmtFixed h 1 ++ "%\n")
    | none => pure ""
  let dewLine ←
    match dp with
    | some dv => do
        let d ← asNum dv
        pure ("Dewpoint: " ++ fmtFixed (d * 9 / 5 + 32) 1 ++ "°F\n")
    | none => pure ""
  let windLine ←
    match ws, wd with
    | some wsv, some wdv => do
        let w ← asNum wsv
        pure ("Wind: " ++ fmtFixed (w * 2.237) 1 ++ " mph from " ++
              pyStr wdv ++ "°\n")
    | _, _ => pure ""
  let prLine ←
    match pr with
    | some pv => do
        let p ← asNum pv
        pure ("Pressure: " ++ fmtFixed (p / 100) 2 ++ " hPa\n")
    | none => pure ""
  let visLine ←
    match vis with
    | some vv => do
        let v ← asNum vv
        pure ("Visibility: " ++ fmtFixed (v / 1609.34) 2 ++ " miles\n")
    | none => pure ""
  pure ("Current Conditions for " ++ locStr ++ ":\n\n" ++ tempLine ++
        "Conditions: " ++ pyStr td ++ "\n" ++ humLine ++ dewLine ++
        windLine ++ prLine ++ visLine)

/-- `get_current_conditions(latitude, longitude)` (line 230). -/
def get_current_conditions (net : Net) (latitude longitude : Q) :
    W String := do
  if !validate_coordinates latitude longitude then
    pure "Error: Invalid coordinates. Latitude must be between -90 and 90, longitude between -180 and 180."
  else do
    let points? ← fetchNws net (.str (pointsUrl latitude longitude))
    let noData :=
      "Unable to fetch weather data for coordinates (" ++ qRender latitude ++
        ", " ++ qRender longitude ++ ")."
    match points? with
    | none => pure noData
    | some pd =>
        if pd.falsy then pure noData
        else do
          let hk ← liftE (pyHasKey pd "properties")
          if !hk then pure noData
          else do
            let props ← liftE (pySub pd "properties")
            let obsUrl ← liftE (pyGetOpt props "observationStations")
            if optFalsy obsUrl then
              pure "No observation stations available for this location."
            else do
              let sd? ← fetchNws net (obsUrl.getD .null)
              let noStations := "No observation stations found for this location."
              match sd? with
              | none => pure noStations
              | some sd =>
                  if sd.falsy then pure noStations
                  else do
                    let feats ← liftE (pyGetOpt sd "features")
                    if optFalsy feats then pure noStations
                    else do
                      let f0 ← liftE
                        (match feats.getD .null with
                         | .arr (x :: _) => .ok x
                         | _ => .error "TypeError")
                      let fprops ← liftE (pySub f0 "properties")
                      let sid ← liftE (pySub fprops "stationIdentifier")
                      let od? ← fetchNws net
                        (.str (NWS_API_BASE ++ "/stations/" ++ pyStr sid ++
                               "/observations/latest"))
                      let noObs := "Unable to fetch current observations."
                      match od? with
                      | none => pure noObs
                      | some od =>
                          if od.falsy then pure noObs
                          else do
                            let hk2 ← liftE (pyHasKey od "properties")
                            if !hk2 then pure noObs
                            else do
                              let oprops ← liftE (pySub od "properties")
                              let rl ← liftE (pyGetD props "relativeLocation" (.obj []))
                              let rlp1 ← liftE (pyGetD rl "properties" (.obj []))
                              let city ← liftE (pyGetD rlp1 "city" (.str "Unknown"))
                              let rlp2 ← liftE (pyGetD rl "properties" (.obj []))
                              let st ← liftE (pyGetD rlp2 "state" (.str "Unknown"))
                              let locStr := pyStr city ++ ", " ++ pyStr st
                              liftE (currentBody oprops locStr)

/-- `period = forecast["properties"]["periods"][0] if ... else None`
(lines 359-360): the first period, `None` when the period list is falsy,
`TypeError` when a truthy non-list is indexed. -/
def firstPeriod (fd : Json) : Except String (Option Json) := do
  let props ← pySub fd "properties"
  let pers ← pySub props "periods"
  if pers.falsy then pure none
  else
    match pers with
    | .arr (x :: _) => pure (some x)
    | _ => .error "TypeError"

/-- The comparison table and warmth analysis of `compare_weather`
(lines 365-388), from the two first periods and the two location
strings. -/
def compareBody (p1 p2 : Json) (loc1Str loc2Str : String) :
    Except String String := do
  let head := "🌤️  Weather Comparison\n" ++ (⟨List.replicate 60 '='⟩ : String) ++
    "\n\n" ++ padStr loc1Str 30 ++ " | " ++ loc2Str ++ "\n" ++
    (⟨List.replicate 60 '-'⟩ : String) ++ "\n"
  let t1 ← pySub p1 "temperature"
  let tu1 ← pySub p1 "temperatureUnit"
  let tu1p ← padFmt tu1 25
  let t2 ← pySub p2 "temperature"
  let tu2 ← pySub p2 "temperatureUnit"
  let tempRow := "Temperature: " ++ pyStr t1 ++ "°" ++ tu1p ++ " | " ++
    pyStr t2 ++ "°" ++ pyStr tu2 ++ "\n"
  let ws1 ← pySub p1 "windSpeed"
  let wd1 ← pySub p1 "windDirection"
  let wd1p ← padFmt wd1 25
  let ws2 ← pySub p2 "windSpeed"
  let wd2 ← pySub p2 "windDirection"
  let windRow := "Wind: " ++ pyStr ws1 ++ " " ++ wd1p ++ " | " ++
    pyStr ws2 ++ " " ++ pyStr wd2 ++ "\n"
  let rh1 ← pyGetOpt p1 "relativeHumidity"
  let rh2 ← pyGetOpt p2 "relativeHumidity"
  let humRow ←
    if !optFalsy rh1 && !optFalsy rh2 then do
      let r1 ← pySub p1 "relativeHumidity"
      let v1 ← pySub r1 "value"
      let r2 ← pySub p2 "relativeHumidity"
      let v2 ← pySub r2 "value"
      pure ("Humidity: " ++ pyStr v1 ++ "%" ++ padStr "" 25 ++ " | " ++
            pyStr v2 ++ "%\n")
    else pure ""
  let pp1 ← pyGetOpt p1 "probabilityOfPrecipitation"
  let pp2 ← pyGetOpt p2 "probabilityOfPrecipitation"
  let popRow ←
    if !optFalsy pp1 && !optFalsy pp2 then do
      let q1 ← pySub p1 "probabilityOfPrecipitation"
      let v1 ← pySub q1 "value"
      let q2 ← pySub p2 "probabilityOfPrecipitation"
      let v2 ← pySub q2 "value"
      pure ("Precip Chance: " ++ pyStr v1 ++ "%" ++ padStr "" 22 ++ " | " ++
            pyStr v2 ++ "%\n")
    else pure ""
  let det1 ← pySub p1 "detailedForecast"
  let det2 ← pySub p2 "detailedForecast"
  let fcBlock := "\nForecast:\n" ++ loc1Str ++ ": " ++ pyStr det1 ++ "\n" ++
    loc2Str ++ ": " ++ pyStr det2 ++ "\n"
  let ta ← pySub p1 "temperature"
  let tb ← pySub p2 "temperature"
  let qa ← asNum ta
  let qb ← asNum tb
  let d := qa - qb
  let flag :=
    if Q.abs d > 5 then
      "\n💡 " ++ (if d > 0 then loc1Str else loc2Str) ++ " is " ++
        qRender (Q.abs d) ++ "°" ++ pyStr tu1 ++ " warmer!"
    else ""
  pure (head ++ tempRow ++ windRow ++ humRow ++ popRow ++ fcBlock ++ flag)

/-- `compare_weather(location1, location2)` (line 293). -/
def compare_weather (geoNet : Net) (net : Net) (location1 location2 : String) :
    W String := do
  let c1 ←
    match parse_location location1 with
    | some (la, lo) => pure (some (Json.num la, Json.num lo))
    | none => geocode_location geoNet location1
  match c1 with
  | none =>
      pure ("Error: Could not find coordinates for '" ++ location1 ++
            "'. Please check the city name or use 'lat,lon' format (e.g., '40.7128,-74.0060').")
  | some (j1a, j1b) => do
      let c2 ←
        match parse_location location2 with
        | some (la, lo) => pure (some (Json.num la, Json.num lo))
        | none => geocode_location geoNet location2
      match c2 with
      | none =>
          pure ("Error: Could not find coordinates for '" ++ location2 ++
                "'. Please check the city name or use 'lat,lon' format (e.g., '40.7128,-74.0060').")
      | some (j2a, j2b) => do
          let n1 ←
            match j1a, j1b with
            | .num a, .num b => pure (a, b)
            | _, _ => thr (α := Q × Q) "TypeError"
          let f1? ← get_forecast_data net n1.1 n1.2
          let n2 ←
            match j2a, j2b with
            | .num a, .num b => pure (a, b)
            | _, _ => thr (α := Q × Q) "TypeError"
          let f2? ← get_forecast_data net n2.1 n2.2
          if optFalsy f1? then
            pure ("Unable to fetch weather data for '" ++ location1 ++
                  "' (coordinates: " ++ pyStr j1a ++ ", " ++ pyStr j1b ++
                  "). The location may be outside NWS coverage area (US territories only).")
          else if optFalsy f2? then
            pure ("Unable to fetch weather data for '" ++ location2 ++
                  "' (coordinates: " ++ pyStr j2a ++ ", " ++ pyStr j2b ++
                  "). The location may be outside NWS coverage area (US territories only).")
          else do
            let f1 := f1?.getD .null
            let f2 := f2?.getD .null
            let l1i ← liftE (pyGetD f1 "_location" (.obj []))
            let c1s ← liftE (pyGetD l1i "city" (.str location1))
            let s1s ← liftE (pyGetD l1i "state" (.str "Unknown"))
            let l2i ← liftE (pyGetD f2 "_location" (.obj []))
            let c2s ← liftE (pyGetD l2i "city" (.str location2))
            let s2s ← liftE (pyGetD l2i "state" (.str "Unknown"))
            let loc1Str := pyStr c1s ++ ", " ++ pyStr s1s
            let loc2Str := pyStr c2s ++ ", " ++ pyStr s2s
            let p1? ← liftE (firstPeriod f1)
            let p2? ← liftE (firstPeriod f2)
            if optFalsy p1? || optFalsy p2? then
              pure "Unable to get current conditions for comparison."
            else
              liftE (compareBody (p1?.getD .null) (p2?.getD .null)
                loc1Str loc2Str)

/-! ### Concrete documents and network families used by the claims -/

/-- A fully-populated forecast period with temperature `t` and detailed
forecast `d`. -/
def stdPeriod (t : Q) (d : String) : Json :=
  .obj [("name", .str "Tonight"), ("temperature", .num t),
        ("temperatureUnit", .str "F"), ("windSpeed", .str "5 mph"),
        ("windDirection", .str "NW"), ("detailedForecast", .str d)]

/-- A forecast document whose properties carry the given period list. -/
def stdForecastDoc (ps : List Json) : Json :=
  .obj [("properties", .obj [("periods", .arr ps)])]

/-- A points document with a forecast URL and a relative location. -/
def stdPts (furl city st : String) : Json :=
  .obj [("properties", .obj
    [("forecast", .str furl),
     ("relativeLocation", .obj [("properties", .obj
       [("city", .str city), ("state", .str st)])])])]

/-- A points document carrying only a forecast URL (no relative
location, so the location defaults apply). -/
def c1Pts : Json := .obj [("properties", .obj [("forecast", .str "F1")])]

/-- Network family for the missing-`periods` scenario: the points lookup
succeeds, the forecast fetch succeeds, and the forecast document's
`properties` object is exactly `fkvs`. -/
def netC1fam (fkvs : List (String × Json)) : Net := fun url =>
  if url = pointsUrl 39 (-76) then some c1Pts
  else if url = "F1" then some (.obj [("properties", .obj fkvs)])
  else none

/-- Two healthy locations whose first forecast periods lack the
`temperature` key. -/
def netC1cmp : Net := fun url =>
  if url = pointsUrl 39 (-76) then some (stdPts "F1" "Baltimore" "MD")
  else if url = pointsUrl 34 (-118) then some (stdPts "F2" "LA" "CA")
  else if url = "F1" then some (stdForecastDoc [.obj [("z", .null)]])
  else if url = "F2" then some (stdForecastDoc [.obj [("z", .null)]])
  else none

/-- A healthy single-period network (for the positive part of C1 and the
period-truncation claim). -/
def netF (ps : List Json) : Net := fun url =>
  if url = pointsUrl 39 (-76) then some c1Pts
  else if url = "F1" then some (stdForecastDoc ps)
  else none

/-- A geocoder oracle that never answers (transport error / timeout /
bad status / malformed body, all collapsed by the source). -/
def geoNone : Net := fun _ => none

/-- One geocoding result: optional country code, latitude, longitude. -/
def mkGeoRes (e : Option String × Q × Q) : Json :=
  .obj ((match e.1 with
         | some c => [("country_code", Json.str c)]
         | none => []) ++
        [("latitude", .num e.2.1), ("longitude", .num e.2.2)])

/-- A geocoding response whose `results` list renders `es`. -/
def geoDoc (es : List (Option String × Q × Q)) : Json :=
  .obj [("results", .arr (es.map mkGeoRes))]

/-- A geocoder oracle answering every query with `geoDoc es`. -/
def geoNetOf (es : List (Option String × Q × Q)) : Net :=
  fun _ => some (geoDoc es)

/-- Modelled from the spec: the geocoder's selection policy — the first
result whose country code is `"US"`, else the first result, else
nothing.  Compared against the code's `geocode_location` below. -/
def selectSpec (es : List (Option String × Q × Q)) : Option (Q × Q) :=
  match es.find? (fun e => e.1 = some "US") with
  | some e => some e.2
  | none => es.head?.map (·.2)

/-- A geocoder that resolves every city to the out-of-range pair
`(100, 0)`. -/
def geoBad : Net :=
  fun _ => some (geoDoc [(some "US", 100, 0)])

/-- Points document whose forecast URL is the empty string (present but
falsy). -/
def netC4 : Net := fun url =>
  if url = pointsUrl 39 (-76) then
    some (.obj [("properties", .obj [("forecast", .str "")])])
  else if url = "" then some (stdForecastDoc [stdPeriod 70 "Clear."])
  else none

/-- Family for the forecast-bundle claim: the points fetch succeeds with
forecast URL `fore` (`none` = key omitted) and relative location `rel`
(`none` = key omitted; otherwise optional raw city and state values);
every other URL answers `fresp` (`none` = fetch failure, otherwise an
object with entries `fkvs`). -/
def c4Pts (fore : Option String) (rel : Option (Option Json × Option Json)) :
    Json :=
  .obj [("properties", .obj
    ((match fore with
      | some f => [("forecast", Json.str f)]
      | none => []) ++
     (match rel with
      | some (c, s) =>
          [("relativeLocation", Json.obj [("properties", Json.obj
            ((match c with
              | some cv => [("city", cv)]
              | none => []) ++
             (match s with
              | some sv => [("state", sv)]
              | none => [])))])]
      | none => [])))]

/-- The network of the family: points at the points URL, `fresp`
everywhere else. -/
def c4Net (lat lon : Q) (fore : Option String)
    (rel : Option (Option Json × Option Json))
    (fresp : Option (List (String × Json))) : Net := fun url =>
  if url = pointsUrl lat lon then some (c4Pts fore rel)
  else fresp.map Json.obj

/-- When the forecast stage of the family fails: the URL is omitted or
empty (falsy), the fetch fails, or the fetched document is falsy or
lacks a `properties` key. -/
def c4Fails (fore : Option String) (fresp : Option (List (String × Json))) :
    Prop :=
  match fore with
  | none => True
  | some f =>
      f = "" ∨
      match fresp with
      | none => True
      | some kvs => kvs = [] ∨ lookupKV kvs "properties" = none

/-- The city the family's relative location yields (default
`"Unknown"`). -/
def relCity (rel : Option (Option Json × Option Json)) : Json :=
  match rel with
  | some (some c, _) => c
  | _ => .str "Unknown"

/-- The state the family's relative location yields (default
`"Unknown"`). -/
def relState (rel : Option (Option Json × Option Json)) : Json :=
  match rel with
  | some (_, some s) => s
  | _ => .str "Unknown"

/-- The full bundle the family's success case returns: the forecast
document with `_location` added. -/
def c4Bundle (rel : Option (Option Json × Option Json))
    (kvs : List (String × Json)) : Json :=
  .obj (setKV kvs "_location"
    (.obj [("city", relCity rel), ("state", relState rel)]))

/-- Points document for the current-conditions family: an observation-
stations URL and no relative location. -/
def ccPts : Json :=
  .obj [("properties", .obj [("observationStations", .str "OBS")])]

/-- One observation station `S1`. -/
def ccStations : Json :=
  .obj [("features", .arr
    [.obj [("properties", .obj [("stationIdentifier", .str "S1")])]])]

/-- The latest-observations URL for station `S1`. -/
def obsUrlS : String := NWS_API_BASE ++ "/stations/S1/observations/latest"

/-- Current-conditions family: the observation document's properties are
exactly `okvs`. -/
def netCC (okvs : List (String × Json)) : Net := fun url =>
  if url = pointsUrl 39 (-76) then some ccPts
  else if url = "OBS" then some ccStations
  else if url = obsUrlS then some (.obj [("properties", .obj okvs)])
  else none

/-- The fully-populated observation of the unit-conversion examples:
20 °C, 5 m/s wind from 270°, 101325 Pa, 16093.4 m visibility. -/
def fullObs : List (String × Json) :=
  [("temperature", .obj [("value", .num 20)]),
   ("dewpoint", .obj [("value", .num 10)]),
   ("relativeHumidity", .obj [("value", .num 65.5)]),
   ("windSpeed", .obj [("value", .num 5)]),
   ("windDirection", .obj [("value", .num 270)]),
   ("barometricPressure", .obj [("value", .num 101325)]),
   ("visibility", .obj [("value", .num 16093.4)]),
   ("textDescription", .str "Sunny")]

/-- Network family for the comparison claim: two healthy locations whose
first periods have temperatures `t1`, `t2` and detailed forecasts `d1`,
`d2`. -/
def netCW (t1 t2 : Q) (d1 d2 : String) : Net := fun url =>
  if url = pointsUrl 39 (-76) then some (stdPts "F1" "Baltimore" "MD")
  else if url = pointsUrl 34 (-118) then some (stdPts "F2" "LA" "CA")
  else if url = "F1" then some (stdForecastDoc [stdPeriod t1 d1])
  else if url = "F2" then some (stdForecastDoc [stdPeriod t2 d2])
  else none

/-- What `compare_weather` prints on the `netCW` family: the fixed table,
both detailed forecasts, and the warmth flag exactly when the
temperature difference exceeds 5 in absolute value.  (The lets mirror
`compareBody`'s assembly.) -/
def cmpExpected (t1 t2 : Q) (d1 d2 : String) : String :=
  let loc1Str := "Baltimore, MD"
  let loc2Str := "LA, CA"
  let head := "🌤️  Weather Comparison\n" ++ (⟨List.replicate 60 '='⟩ : String) ++
    "\n\n" ++ padStr loc1Str 30 ++ " | " ++ loc2Str ++ "\n" ++
    (⟨List.replicate 60 '-'⟩ : String) ++ "\n"
  let tempRow := "Temperature: " ++ qRender t1 ++ "°" ++ padStr "F" 25 ++
    " | " ++ qRender t2 ++ "°" ++ "F" ++ "\n"
  let windRow := "Wind: " ++ "5 mph" ++ " " ++ padStr "NW" 25 ++ " | " ++
    "5 mph" ++ " " ++ "NW" ++ "\n"
  let fcBlock := "\nForecast:\n" ++ loc1Str ++ ": " ++ d1 ++ "\n" ++
    loc2Str ++ ": " ++ d2 ++ "\n"
  let d := t1 - t2
  let flag :=
    if Q.abs d > 5 then
      "\n💡 " ++ (if d > 0 then loc1Str else loc2Str) ++ " is " ++
        qRender (Q.abs d) ++ "°" ++ "F" ++ " warmer!"
    else ""
  head ++ tempRow ++ windRow ++ "" ++ "" ++ fcBlock ++ flag

/-- Decidable equality for `Except` (not provided by the library). -/
def exceptDecEq {ε α : Type} [DecidableEq ε] [DecidableEq α] :
    (a b : Except ε α) → Decidable (a = b)
  | .error x, .error y =>
      if h : x = y then .isTrue (by rw [h])
      else .isFalse (by intro c; injection c; exact h ‹_›)
  | .error _, .ok _ => .isFalse (by intro c; exact Except.noConfusion c)
  | .ok _, .error _ => .isFalse (by intro c; exact Except.noConfusion c)
  | .ok x, .ok y =>
      if h : x = y then .isTrue (by rw [h])
      else .isFalse (by intro c; injection c; exact h ‹_›)

instance {ε α : Type} [DecidableEq ε] [DecidableEq α] :
    DecidableEq (Except ε α) := exceptDecEq

/-- What `get_current_conditions` prints on the `netCC` family when only
the temperature is observed: its conversion `t*9/5+32`, the `N/A`
marker for the missing text description, and no line at all for any
other absent field.  (The lets mirror `currentBody`'s assembly.) -/
def c5Expected (t : Q) : String :=
  let tu := "°F (" ++ fmtFixed t 1 ++ "°C)"
  let tempLine := "Temperature: " ++ fmtFixed (t * 9 / 5 + 32) 1 ++ tu ++ "\n"
  "Current Conditions for " ++ "Unknown, Unknown" ++ ":\n\n" ++ tempLine ++
    "Conditions: " ++ "N/A" ++ "\n" ++ "" ++ "" ++ "" ++ "" ++ ""

/-- Observation with a 20 °C temperature and a humidity field whose
`value` is JSON `null` (the station reports the field but no value). -/
def c5CexObs : List (String × Json) :=
  [("temperature", .obj [("value", .num 20)]),
   ("relativeHumidity", .obj [("value", .null)])]

/-- The output of `get_current_conditions` on `fullObs`. -/
def c5FullStr : String :=
  "Current Conditions for Unknown, Unknown:\n\nTemperature: 68.0°F (20.0°C)\nConditions: Sunny\nHumidity: 65.5%\nDewpoint: 50.0°F\nWind: 11.2 mph from 270°\nPressure: 1013.25 hPa\nVisibility: 10.00 miles\n"

/-- The closed form of `get_forecast`'s success output on the `netF`
family: the header and the first ten periods' blocks. -/
def fbShape (l : List Json) : Except String String :=
  (fun blocks => "Weather Forecast for " ++ "Unknown" ++ ", " ++ "Unknown" ++
    ":\n" ++ String.intercalate "\n---\n" blocks) <$> (l.mapM renderPeriod)

/-- A fully-populated period named `nm`. -/
def stdPeriodN (nm : String) : Json :=
  .obj [("name", .str nm), ("temperature", .num 70),
        ("temperatureUnit", .str "F"), ("windSpeed", .str "5 mph"),
        ("windDirection", .str "NW"), ("detailedForecast", .str "Fine.")]

/-- Eleven periods named `P1` … `P11`. -/
def c9periods : List Json :=
  [stdPeriodN "P1", stdPeriodN "P2", stdPeriodN "P3", stdPeriodN "P4",
   stdPeriodN "P5", stdPeriodN "P6", stdPeriodN "P7", stdPeriodN "P8",
   stdPeriodN "P9", stdPeriodN "P10", stdPeriodN "P11"]

/-- A geocoder that resolves every query to the US result `(39, -76)`. -/
def geoOkBalt : Net := fun _ => some (geoDoc [(some "US", 39, -76)])

/-! ### Reduction lemmas for the monads -/

/-- Reduction of `W`'s bind. -/
theorem W.bind_eq {α β : Type} (x : W α) (f : α → W β) :
    x >>= f =
      (match x with
       | (.error e, t) => ((.error e : Except String β), t)
       | (.ok a, t) => ((f a).1, t ++ (f a).2)) := by
  obtain ⟨x1, t⟩ := x
  cases x1 <;> rfl

/-- Reduction of `W`'s pure. -/
theorem W.pure_eq {α : Type} (a : α) :
    (Pure.pure a : W α) = (.ok a, []) := rfl

/-- Reduction of `W`'s map (the default `map` from `bind` and `pure`). -/
theorem W.map_eq {α β : Type} (g : α → β) (x : W α) :
    g <$> x =
      (match x with
       | (.error e, t) => ((.error e : Except String β), t)
       | (.ok a, t) => (.ok (g a), t ++ [])) := by
  obtain ⟨x1, t⟩ := x
  cases x1 <;> rfl

/-- Reduction of `Except`'s bind. -/
theorem exceptBind_eq {ε α β : Type} (x : Except ε α) (f : α → Except ε β) :
    x >>= f =
      (match x with
       | .error e => (.error e : Except ε β)
       | .ok a => f a) := by
  cases x <;> rfl

/-- Reduction of `Except`'s pure. -/
theorem exceptPure_eq {ε α : Type} (a : α) :
    (Pure.pure a : Except ε α) = .ok a := rfl

/-- Reduction of `Except`'s map. -/
theorem exceptMap_eq {ε α β : Type} (g : α → β) (x : Except ε α) :
    g <$> x =
      (match x with
       | .error e => (.error e : Except ε β)
       | .ok a => .ok (g a)) := by
  cases x <;> rfl

/-! ### Helper lemmas -/

/-- A comma-free character list splits into itself alone. -/
theorem splitOnComma_no_comma (l : List Char) (h : ',' ∉ l) :
    splitOnComma l = [l] := by
  induction l with
  | nil => rfl
  | cons c rest ih =>
      have hc : c ≠ ',' := fun e => h (e ▸ List.mem_cons_self c rest)
      have hr : ',' ∉ rest := fun m => h (List.mem_cons_of_mem c m)
      simp [splitOnComma, if_neg (fun e => hc e), ih hr]

/-- A two-part split forces a comma in the list. -/
theorem contains_of_two (l p1 p2 : List Char)
    (h : splitOnComma l = [p1, p2]) : l.contains ',' = true := by
  by_cases hm : ',' ∈ l
  · exact List.elem_iff.mpr hm
  · rw [splitOnComma_no_comma l hm] at h
    exact absurd h (by simp)

/-- The geocoder's scan loop returns the first `country_code == "US"`
result. -/
theorem geoFindUS_map (es : List (Option String × Q × Q)) :
    geoFindUS (es.map mkGeoRes) =
      .ok ((es.find? (fun e => e.1 = some "US")).map
        fun e => (Json.num e.2.1, Json.num e.2.2)) := by
  induction es with
  | nil => rfl
  | cons e rest ih =>
      obtain ⟨cc, la, lo⟩ := e
      cases cc with
      | none =>
          simp only [List.map_cons, geoFindUS, mkGeoRes, pyGetOpt, lookupKV,
            exceptBind_eq, ccIsUS, List.find?, ih]
          simp
      | some c =>
          by_cases hc : c = "US"
          · subst hc
            simp only [List.map_cons, geoFindUS, mkGeoRes, pyGetOpt, lookupKV,
              exceptBind_eq, ccIsUS, List.find?]
            simp [pySub, lookupKV, exceptPure_eq]
          · simp only [List.map_cons, geoFindUS, mkGeoRes, pyGetOpt, lookupKV,
              exceptBind_eq, ccIsUS, List.find?, ih]
            simp [hc]

/-- The geocoding body implements the spec's selection policy on every
rendered result list. -/
theorem geocodeBody_spec (es : List (Option String × Q × Q)) :
    geocodeBody (geoDoc es) =
      .ok ((selectSpec es).map fun p => (Json.num p.1, Json.num p.2)) := by
  cases es with
  | nil => rfl
  | cons e rest =>
      obtain ⟨cc, la, lo⟩ := e
      have hfind := geoFindUS_map ((cc, la, lo) :: rest)
      rw [List.map_cons] at hfind
      simp only [geocodeBody, geoDoc, pyGetOpt, lookupKV, pyLen, asList,
        exceptBind_eq, exceptPure_eq, Json.falsy, List.map_cons, if_true,
        List.isEmpty_cons, List.length_cons, Nat.succ_pos, if_pos, hfind]
      cases hf : List.find? (fun e => decide (e.1 = some "US")) ((cc, la, lo) :: rest) with
      | some u => simp [selectSpec, hf]
      | none =>
          cases cc with
          | none => simp [selectSpec, hf, mkGeoRes, pySub, lookupKV]
          | some c => simp [selectSpec, hf, mkGeoRes, pySub, lookupKV]

/-! ### The claims -/

/-- C2: the location parser classifies a string as a coordinate pair
exactly when splitting on comma yields two parts, both stripped parts
parse as floats, and the pair passes `validate_coordinates`; every other
string (including `"New York, NY"`) is a place name (`none`), and
`parse_location "40.7128,-74.0060"` is `(40.7128, -74.0060)`. -/
theorem claim_C2 :
    (∀ (loc : String) (la lo : Q),
       parse_location loc = some (la, lo) ↔
         ∃ p1 p2, splitOnComma loc.data = [p1, p2] ∧
           pyFloat (stripChars p1) = some la ∧
           pyFloat (stripChars p2) = some lo ∧
           validate_coordinates la lo = true)
    ∧ parse_location "40.7128,-74.0060" = some (40.7128, -74.0060)
    ∧ parse_location "New York, NY" = none := by
  refine ⟨?_, by decide, by decide⟩
  intro loc la lo
  constructor
  · intro h
    simp only [parse_location] at h
    split at h
    · cases hsp : splitOnComma loc.data with
      | nil => rw [hsp] at h; exact absurd h (by simp)
      | cons p1 rest =>
        cases rest with
        | nil => rw [hsp] at h; exact absurd h (by simp)
        | cons p2 rest2 =>
          cases rest2 with
          | cons p3 r3 => rw [hsp] at h; exact absurd h (by simp)
          | nil =>
            rw [hsp] at h
            cases hf1 : pyFloat (stripChars p1) with
            | none => simp only [hf1] at h; exact Option.noConfusion h
            | some a =>
              cases hf2 : pyFloat (stripChars p2) with
              | none => simp only [hf1, hf2] at h; exact Option.noConfusion h
              | some b =>
                by_cases hv : validate_coordinates a b = true
                · simp only [hf1, hf2, hv, if_true] at h
                  obtain ⟨rfl, rfl⟩ : a = la ∧ b = lo := by
                    have := Option.some.inj h
                    exact ⟨congrArg Prod.fst this, congrArg Prod.snd this⟩
                  exact ⟨p1, p2, rfl, hf1, hf2, hv⟩
                · simp only [hf1, hf2, hv, if_false] at h
                  simp at h
    · exact absurd h (by simp)
  · rintro ⟨p1, p2, hsp, h1, h2, hv⟩
    have hc := contains_of_two _ _ _ hsp
    simp only [parse_location, hc, hsp, h1, h2, hv, if_true]

/-- C3: the geocoder returns the first `"US"`-tagged result's
coordinates, else the first result's, else nothing; a failed fetch, a
malformed response and a result lacking coordinate keys all collapse to
the same absence; and on `[FR, US(34.05, -118.24)]` it picks the US
entry. -/
theorem claim_C3 :
    (∀ (es : List (Option String × Q × Q)) (city : String),
       geocode_location (geoNetOf es) city =
         (.ok ((selectSpec es).map fun p => (Json.num p.1, Json.num p.2)),
          ["GEOCODE:" ++ city]))
    ∧ (∀ city : String, geocode_location (fun _ => none) city =
         (.ok none, ["GEOCODE:" ++ city]))
    ∧ geocode_location (fun _ => some (.obj [("results", .num 5)])) "X" =
        (.ok none, ["GEOCODE:X"])
    ∧ geocode_location
        (fun _ => some (.obj [("results", .arr [.obj [("country_code", .str "US")]])]))
        "X" = (.ok none, ["GEOCODE:X"])
    ∧ geocode_location (geoNetOf [(some "FR", 48.85, 2.35), (some "US", 34.05, -118.24)]) "X" =
        (.ok (some (.num 34.05, .num (-118.24))), ["GEOCODE:X"]) := by
  refine ⟨?_, fun city => rfl, rfl, rfl, ?_⟩
  · intro es city
    simp [geocode_location, geoNetOf, geocodeBody_spec es]
  · have h := geocodeBody_spec [(some "FR", 48.85, 2.35), (some "US", 34.05, -118.24)]
    simp [geocode_location, geoNetOf, h, selectSpec]

/-- C1 (counterexample): with valid coordinates, a successful points
lookup and a successfully fetched forecast document whose `properties`
object lacks the `periods` key, `get_forecast` raises `KeyError`
instead of returning a string. -/
theorem c1_counterexample :
    get_forecast (netC1fam []) 39 (-76) =
      (.error "KeyError: periods", [pointsUrl 39 (-76), "F1"]) := rfl

/-- C1 (amended): tool operations return a descriptive string on every
failure path that the code guards, but a fetched forecast document whose
`properties` lacks `periods` makes `get_forecast` raise
`KeyError: periods`, and a first period lacking `temperature` makes
`compare_weather` raise `KeyError: temperature`; on well-shaped
documents `get_forecast` returns its string. -/
theorem claim_C1 :
    (∀ fkvs : List (String × Json), lookupKV fkvs "periods" = none →
       get_forecast (netC1fam fkvs) 39 (-76) =
         (.error "KeyError: periods", [pointsUrl 39 (-76), "F1"]))
    ∧ compare_weather geoNone netC1cmp "39,-76" "34,-118" =
        (.error "KeyError: temperature",
         [pointsUrl 39 (-76), "F1", pointsUrl 34 (-118), "F2"])
    ∧ get_forecast (netF [stdPeriod 70 "Clear."]) 39 (-76) =
        (.ok "Weather Forecast for Unknown, Unknown:\n\nTonight:\n  Temperature: 70°F\n  Wind: 5 mph NW\n  \n  \n  Forecast: Clear.\n",
         [pointsUrl 39 (-76), "F1"]) := by
  refine ⟨?_, rfl, rfl⟩
  intro fkvs h
  have h2 : forecastBody (.obj [("properties", .obj fkvs),
      ("_location", .obj [("city", .str "Unknown"), ("state", .str "Unknown")])])
      (.str "Unknown") = .error "KeyError: periods" := by
    simp [forecastBody, pySub, lookupKV, h, exceptBind_eq, exceptPure_eq, exceptMap_eq]
  simp +decide [get_forecast, W.bind_eq, W.pure_eq, h2, optFalsy, Json.falsy, liftE,
    Option.getD,
    show get_forecast_data (netC1fam fkvs) 39 (-76) =
      (.ok (some (.obj [("properties", .obj fkvs),
        ("_location", .obj [("city", .str "Unknown"), ("state", .str "Unknown")])])),
       [pointsUrl 39 (-76), "F1"]) from rfl]

/-- C1 (witness): the amended theorem at a concrete forecast-properties
object that lacks `periods`. -/
theorem c1_witness :
    get_forecast (netC1fam [("x", Json.null)]) 39 (-76) =
      (.error "KeyError: periods", [pointsUrl 39 (-76), "F1"]) :=
  claim_C1.1 [("x", Json.null)] rfl

/-- C5 (counterexample): with the humidity reading absent (its `value`
is JSON `null`), the output simply omits the humidity line — it contains
no "not available" marker for it, contradicting the claim that every
absent field is rendered as such a marker (only the temperature and the
text description get `N/A`). -/
theorem c5_counterexample :
    (get_current_conditions (netCC c5CexObs) 39 (-76)).1 = .ok (c5Expected 20)
    ∧ lookupKV c5CexObs "relativeHumidity" = some (.obj [("value", .null)])
    ∧ containsStr (c5Expected 20) "Humidity" = false
    ∧ containsStr (c5Expected 20) "not available" = false
    ∧ containsStr (c5Expected 20) "N/A" = true := by
  exact ⟨rfl, rfl, by decide, by decide, by decide⟩

/-- C5 (amended): conversions are exactly `F = C*9/5+32`, m/s→mph by
`*2.237`, Pa→hPa by `/100` and m→miles by `/1609.34`, applied only when
the source value is present (`20 → 68.0 °F`, `5 → 11.2 mph`,
`101325 → 1013.25 hPa`, `16093.4 → 10.00 miles`); an absent temperature
or text description is rendered `N/A`, while any other absent field's
line is omitted from the output entirely — never rendered as zero or as
a value computed from missing data. -/
theorem claim_C5 :
    (∀ t : Q, get_current_conditions
        (netCC [("temperature", .obj [("value", .num t)])]) 39 (-76) =
      (.ok (c5Expected t), [pointsUrl 39 (-76), "OBS", obsUrlS]))
    ∧ get_current_conditions (netCC fullObs) 39 (-76) =
        (.ok c5FullStr, [pointsUrl 39 (-76), "OBS", obsUrlS])
    ∧ containsStr c5FullStr "Temperature: 68.0°F (20.0°C)" = true
    ∧ containsStr c5FullStr "Wind: 11.2 mph from 270°" = true
    ∧ containsStr c5FullStr "Pressure: 1013.25 hPa" = true
    ∧ containsStr c5FullStr "Visibility: 10.00 miles" = true
    ∧ containsStr (c5Expected 20) "Temperature: 68.0°F (20.0°C)" = true
    ∧ containsStr (c5Expected 20) "Conditions: N/A" = true
    ∧ containsStr (c5Expected 20) "Wind" = false
    ∧ containsStr (c5Expected 20) "Pressure" = false
    ∧ containsStr (c5Expected 20) "Visibility" = false
    ∧ containsStr (c5Expected 20) "Dewpoint" = false
    ∧ containsStr (c5Expected 20) "Humidity" = false := by
  exact ⟨fun t => rfl, rfl, by decide, by decide, by decide, by decide,
    by decide, by decide, by decide, by decide, by decide, by decide, by decide⟩

/-- C6: on two healthy locations with first-period temperatures `t1`,
`t2` and detailed forecasts `d1`, `d2`, `compare_weather` produces the
fixed table followed by a warmth flag iff `|t1 - t2| > 5` (strict, in
the period's native unit), naming the side with the larger temperature
and the magnitude; both detailed texts always appear.  Anchors: 90/70
flags "warmer by 20°F", 72/70 and even 75/70 raise no flag, and the
detailed texts appear in both flagged and unflagged outputs. -/
theorem claim_C6 :
    (∀ (t1 t2 : Q) (d1 d2 : String),
       compare_weather geoNone (netCW t1 t2 d1 d2) "39,-76" "34,-118" =
         (.ok (cmpExpected t1 t2 d1 d2),
          [pointsUrl 39 (-76), "F1", pointsUrl 34 (-118), "F2"]))
    ∧ containsStr (cmpExpected 90 70 "Clear." "Sunny.") "💡 Baltimore, MD is 20°F warmer!" = true
    ∧ containsStr (cmpExpected 72 70 "Clear." "Sunny.") "💡" = false
    ∧ containsStr (cmpExpected 75 70 "Clear." "Sunny.") "💡" = false
    ∧ containsStr (cmpExpected 76 70 "Clear." "Sunny.") "💡 Baltimore, MD is 6°F warmer!" = true
    ∧ containsStr (cmpExpected 70 90 "Clear." "Sunny.") "💡 LA, CA is 20°F warmer!" = true
    ∧ containsStr (cmpExpected 90 70 "Clear." "Sunny.") "Clear." = true
    ∧ containsStr (cmpExpected 90 70 "Clear." "Sunny.") "Sunny." = true
    ∧ containsStr (cmpExpected 72 70 "Clear." "Sunny.") "Clear." = true
    ∧ containsStr (cmpExpected 72 70 "Clear." "Sunny.") "Sunny." = true := by
  exact ⟨fun t1 t2 d1 d2 => rfl, by decide, by decide, by decide, by decide,
    by decide, by decide, by decide, by decide, by decide⟩

/-- C8: invalid input fails before any network effect — for every
network oracle, `get_forecast` at longitude 200 returns the
input-validation message with an empty request trace, and `get_alerts`
on `"ZZ"` returns the invalid-state-code message with an empty request
trace. -/
theorem claim_C8 :
    (∀ net : Net, get_forecast net 40 200 =
       (.ok "Error: Invalid coordinates. Latitude must be between -90 and 90, longitude between -180 and 180.",
        []))
    ∧ (∀ net : Net, get_alerts net "ZZ" =
       (.ok "Error: 'ZZ' is not a valid US state code. Please use a 2-letter code (e.g., CA, NY, TX).",
        [])) :=
  ⟨fun _ => rfl, fun _ => rfl⟩

/-- C9: `get_forecast` and `get_forecast_by_city` render exactly the
first 10 periods in provider order: the output is a function of
`periods.take 10` (so truncating the list to 10 does not change it),
and on an 11-period document the name of the 10th period appears while
the 11th's never does. -/
theorem claim_C9 :
    (∀ ps : List Json, get_forecast (netF ps) 39 (-76) =
       (fbShape (ps.take 10), [pointsUrl 39 (-76), "F1"]))
    ∧ (∀ ps : List Json, get_forecast (netF ps) 39 (-76) =
        get_forecast (netF (ps.take 10)) 39 (-76))
    ∧ (∀ ps : List Json, get_forecast_by_city geoOkBalt (netF ps) "Baltimore" =
        get_forecast_by_city geoOkBalt (netF (ps.take 10)) "Baltimore")
    ∧ ((get_forecast (netF c9periods) 39 (-76)).1.map
        (fun s => (containsStr s "P10", containsStr s "P11"))) = .ok (true, false) := by
  refine ⟨fun ps => rfl, ?_, ?_, by decide⟩
  · intro ps
    have e : ∀ qs : List Json, get_forecast (netF qs) 39 (-76) =
        (fbShape (qs.take 10), [pointsUrl 39 (-76), "F1"]) := fun qs => rfl
    rw [e ps, e (ps.take 10)]
    simp [List.take_take]
  · intro ps
    have e : ∀ qs : List Json, get_forecast_by_city geoOkBalt (netF qs) "Baltimore" =
        (fbShape (qs.take 10), ["GEOCODE:Baltimore", pointsUrl 39 (-76), "F1"]) :=
      fun qs => rfl
    rw [e ps, e (ps.take 10)]
    simp [List.take_take]

/-- C10: a geocoded out-of-range coordinate is not re-validated at the
tool layer — `get_forecast_by_city` (and `compare_weather`) never
return the invalid-coordinates message; `get_forecast_data`'s internal
check yields absence without any weather-service request (the trace
holds only the geocoding calls), and the tools return the coverage-area
message naming the original input. -/
theorem claim_C10 :
    (∀ net : Net, get_forecast_by_city geoBad net "Atlantis" =
       (.ok "Unable to fetch forecast data for Atlantis. The location may be outside NWS coverage area (US only).",
        ["GEOCODE:Atlantis"]))
    ∧ (∀ net : Net, compare_weather geoBad net "Atlantis" "Lemuria" =
       (.ok "Unable to fetch weather data for 'Atlantis' (coordinates: 100, 0). The location may be outside NWS coverage area (US territories only).",
        ["GEOCODE:Atlantis", "GEOCODE:Lemuria"]))
    ∧ ("Unable to fetch forecast data for Atlantis. The location may be outside NWS coverage area (US only)." ≠
        "Error: Invalid coordinates. Latitude must be between -90 and 90, longitude between -180 and 180.") :=
  ⟨fun _ => rfl, fun _ => rfl, by decide⟩

/-- The computable fraction order agrees with the rational order (for
positive denominators). -/
theorem qle_toRat (a b : Q) (ha : 0 < a.den) (hb : 0 < b.den) :
    a ≤ b ↔ toRat a ≤ toRat b := by
  have ha' : (0 : ℚ) < (a.den : ℚ) := by exact_mod_cast ha
  have hb' : (0 : ℚ) < (b.den : ℚ) := by exact_mod_cast hb
  rw [toRat, toRat, div_le_div_iff₀ ha' hb']
  constructor
  · intro h
    have h' : a.num * (b.den : ℤ) ≤ b.num * (a.den : ℤ) := h
    exact_mod_cast h'
  · intro h
    have h' : a.num * (b.den : ℤ) ≤ b.num * (a.den : ℤ) := by exact_mod_cast h
    exact h'

/-- C7: `validate_coordinates` accepts exactly the pairs with latitude
in `[-90, 90]` and longitude in `[-180, 180]` (boundaries included,
`90.0001`, `-90.0001`, `200` and `-180.0001` rejected), and
`validate_state_code` accepts exactly the 51 state/territory codes in
any letter case (all 51 in upper and lower case accepted; `"XX"` and
multi-word input rejected). -/
theorem claim_C7 :
    (∀ lat lon : Q, 0 < lat.den → 0 < lon.den →
       (validate_coordinates lat lon = true ↔
         (-90 ≤ toRat lat ∧ toRat lat ≤ 90 ∧ -180 ≤ toRat lon ∧ toRat lon ≤ 180)))
    ∧ validate_coordinates 90 180 = true
    ∧ validate_coordinates (-90) (-180) = true
    ∧ validate_coordinates 90.0001 0 = false
    ∧ validate_coordinates (-90.0001) 0 = false
    ∧ validate_coordinates 40 200 = false
    ∧ validate_coordinates 40 (-180.0001) = false
    ∧ (∀ s : String, validate_state_code s = true ↔ pyUpper s ∈ US_STATES)
    ∧ US_STATES.all (fun c => validate_state_code c &&
        validate_state_code ⟨c.data.map Char.toLower⟩) = true
    ∧ US_STATES.length = 51
    ∧ US_STATES.Nodup
    ∧ validate_state_code "XX" = false
    ∧ validate_state_code "New York" = false := by
  refine ⟨?_, by decide, by decide, by decide, by decide, by decide, by decide,
    ?_, by decide, by decide, by decide, by decide, by decide⟩
  · intro lat lon ha hb
    have h1 : ((-90 : Q) ≤ lat) ↔ ((-90 : ℚ) ≤ toRat lat) := by
      rw [qle_toRat (-90) lat Nat.one_pos ha]
      rw [show toRat (-90 : Q) = (-90 : ℚ) from by
        rw [toRat, show (-90 : Q).num = -90 from rfl, show (-90 : Q).den = 1 from rfl]
        norm_num]
    have h2 : (lat ≤ (90 : Q)) ↔ (toRat lat ≤ (90 : ℚ)) := by
      rw [qle_toRat lat 90 ha Nat.one_pos]
      rw [show toRat (90 : Q) = (90 : ℚ) from by
        rw [toRat, show (90 : Q).num = 90 from rfl, show (90 : Q).den = 1 from rfl]
        norm_num]
    have h3 : ((-180 : Q) ≤ lon) ↔ ((-180 : ℚ) ≤ toRat lon) := by
      rw [qle_toRat (-180) lon Nat.one_pos hb]
      rw [show toRat (-180 : Q) = (-180 : ℚ) from by
        rw [toRat, show (-180 : Q).num = -180 from rfl, show (-180 : Q).den = 1 from rfl]
        norm_num]
    have h4 : (lon ≤ (180 : Q)) ↔ (toRat lon ≤ (180 : ℚ)) := by
      rw [qle_toRat lon 180 hb Nat.one_pos]
      rw [show toRat (180 : Q) = (180 : ℚ) from by
        rw [toRat, show (180 : Q).num = 180 from rfl, show (180 : Q).den = 1 from rfl]
        norm_num]
    simp [validate_coordinates, h1, h2, h3, h4, and_assoc]
  · intro s
    rw [validate_state_code, List.contains]
    exact List.elem_iff

/-- C7 (witness): the range characterization applied at `(40, -76)`. -/
theorem c7_witness : validate_coordinates 40 (-76) = true := by
  have e1 : toRat (40 : Q) = 40 := by
    rw [toRat, show (40 : Q).num = 40 from rfl, show (40 : Q).den = 1 from rfl]
    norm_num
  have e2 : toRat ((-76) : Q) = -76 := by
    rw [toRat, show ((-76) : Q).num = -76 from rfl, show ((-76) : Q).den = 1 from rfl]
    norm_num
  exact (claim_C7.1 40 (-76) Nat.one_pos Nat.one_pos).mpr
    (by rw [e1, e2]; norm_num)

/-- C4 (counterexample): the points lookup succeeds and its properties
bind `"forecast"` to the empty string — the key is present, not
omitted — and the forecast fetch at `""` would succeed with a document
carrying a `properties` object; yet `get_forecast_data` returns absence
(and never issues the forecast request, per the trace), because the
code treats every falsy URL as missing.  So absence does not hold
"exactly when" one of the claim's listed stages fails. -/
theorem c4_counterexample :
    get_forecast_data netC4 39 (-76) = (.ok none, [pointsUrl 39 (-76)])
    ∧ validate_coordinates 39 (-76) = true
    ∧ netC4 (pointsUrl 39 (-76)) =
        some (.obj [("properties", .obj [("forecast", .str "")])])
    ∧ lookupKV [("forecast", Json.str "")] "forecast" = some (.str "")
    ∧ netC4 "" = some (stdForecastDoc [stdPeriod 70 "Clear."])
    ∧ pyHasKey (stdForecastDoc [stdPeriod 70 "Clear."]) "properties" = .ok true :=
  ⟨rfl, by decide, rfl, rfl, rfl, rfl⟩

set_option maxHeartbeats 3200000 in
/-- C4 (amended): `get_forecast_data` returns absence exactly when a
stage fails — invalid coordinates, failed points lookup, points
document without a `properties` key, forecast URL omitted **or bound to
a falsy value such as the empty string**, failed forecast fetch, or a
forecast document that is empty or lacks `properties`; otherwise it
returns the full forecast document with `_location` city and state
bound from `relativeLocation`, each defaulting to `"Unknown"` when
absent, and never a partial bundle. -/
theorem claim_C4 :
    (∀ (lat lon : Q) (net : Net), validate_coordinates lat lon = false →
       get_forecast_data net lat lon = (.ok none, []))
    ∧ (∀ lat lon : Q, validate_coordinates lat lon = true →
       get_forecast_data (fun _ => none) lat lon = (.ok none, [pointsUrl lat lon]))
    ∧ (∀ (lat lon : Q) (kvs : List (String × Json)),
       validate_coordinates lat lon = true → lookupKV kvs "properties" = none →
       get_forecast_data (fun _ => some (.obj kvs)) lat lon =
         (.ok none, [pointsUrl lat lon]))
    ∧ (∀ (lat lon : Q) (fore : Option String)
         (rel : Option (Option Json × Option Json))
         (fresp : Option (List (String × Json))),
       validate_coordinates lat lon = true →
       (∀ f, fore = some f → f ≠ pointsUrl lat lon) →
       (((get_forecast_data (c4Net lat lon fore rel fresp) lat lon).1 = .ok none ↔
           c4Fails fore fresp)
        ∧ (¬ c4Fails fore fresp →
            (get_forecast_data (c4Net lat lon fore rel fresp) lat lon).1 =
              .ok (some (c4Bundle rel (fresp.getD [])))))) := by
  refine ⟨?_, ?_, ?_, ?_⟩
  · intro lat lon net h
    simp [get_forecast_data, h, W.pure_eq]
  · intro lat lon h
    simp [get_forecast_data, h, fetchNws, W.bind_eq, W.pure_eq]
  · intro lat lon kvs h h2
    cases kvs with
    | nil => simp [get_forecast_data, h, fetchNws, W.bind_eq, W.pure_eq, Json.falsy]
    | cons p rest =>
        simp [get_forecast_data, h, fetchNws, W.bind_eq, W.pure_eq, Json.falsy,
          pyHasKey, liftE, h2]
  · intro lat lon fore rel fresp hv hcol
    have base : ∀ goalEq : (get_forecast_data (c4Net lat lon fore rel fresp) lat lon).1 = .ok none,
        c4Fails fore fresp → True := fun _ _ => trivial
    cases fore with
    | none =>
        have hnone : (get_forecast_data (c4Net lat lon none rel fresp) lat lon).1 = .ok none := by
          rcases rel with _ | ⟨c, s⟩ <;>
            simp [get_forecast_data, hv, fetchNws, W.bind_eq, W.pure_eq, Json.falsy,
              pyHasKey, liftE, c4Net, c4Pts, pySub, pyGetOpt, lookupKV, optFalsy]
        exact ⟨by simp [hnone, c4Fails], fun hc => absurd (show c4Fails none fresp from by simp [c4Fails]) hc⟩
    | some f =>
        have hcf : f ≠ pointsUrl lat lon := hcol f rfl
        by_cases hf : f = ""
        · subst hf
          have hres : (get_forecast_data (c4Net lat lon (some "") rel fresp) lat lon).1 = .ok none := by
            rcases rel with _ | ⟨c, s⟩ <;>
              simp [get_forecast_data, hv, fetchNws, W.bind_eq, W.pure_eq, Json.falsy,
                pyHasKey, liftE, c4Net, c4Pts, pySub, pyGetOpt, lookupKV, optFalsy]
          exact ⟨by simp [hres, c4Fails], fun hc => absurd (show c4Fails (some "") fresp from by simp [c4Fails]) hc⟩
        · cases fresp with
          | none =>
              have hres : (get_forecast_data (c4Net lat lon (some f) rel none) lat lon).1 = .ok none := by
                rcases rel with _ | ⟨c, s⟩ <;>
                  simp [get_forecast_data, hv, fetchNws, W.bind_eq, W.pure_eq, Json.falsy,
                    pyHasKey, liftE, c4Net, c4Pts, pySub, pyGetOpt, lookupKV, optFalsy,
                    hf, if_neg hcf]
              exact ⟨by simp [hres, c4Fails], fun hc => absurd (show c4Fails (some f) none from by simp [c4Fails]) hc⟩
          | some kvs =>
              cases kvs with
              | nil =>
                  have hres : (get_forecast_data (c4Net lat lon (some f) rel (some [])) lat lon).1 = .ok none := by
                    rcases rel with _ | ⟨c, s⟩ <;>
                      simp [get_forecast_data, hv, fetchNws, W.bind_eq, W.pure_eq, Json.falsy,
                        pyHasKey, liftE, c4Net, c4Pts, pySub, pyGetOpt, lookupKV, optFalsy,
                        hf, if_neg hcf]
                  exact ⟨by simp [hres, c4Fails],
                    fun hc => absurd (show c4Fails (some f) (some []) from by simp [c4Fails]) hc⟩
              | cons p rest =>
                  cases hlk : lookupKV (p :: rest) "properties" with
                  | none =>
                      have hs : (if p.1 = "properties" then some p.2 else lookupKV rest "properties") = none := hlk
                      have hres : (get_forecast_data (c4Net lat lon (some f) rel (some (p :: rest))) lat lon).1 = .ok none := by
                        rcases rel with _ | ⟨c, s⟩ <;>
                          simp [get_forecast_data, hv, fetchNws, W.bind_eq, W.pure_eq, Json.falsy,
                            pyHasKey, liftE, c4Net, c4Pts, pySub, pyGetOpt, lookupKV, optFalsy,
                            hf, if_neg hcf, hs]
                      exact ⟨by simp [hres, c4Fails, hf, hlk],
                        fun hc => absurd (show c4Fails (some f) (some (p :: rest)) from by simp [c4Fails, hlk]) hc⟩
                  | some v =>
                      have hs : (if p.1 = "properties" then some p.2 else lookupKV rest "properties") = some v := hlk
                      have hres : (get_forecast_data (c4Net lat lon (some f) rel (some (p :: rest))) lat lon).1 =
                          .ok (some (c4Bundle rel (p :: rest))) := by
                        rcases rel with _ | ⟨c, s⟩
                        · simp [get_forecast_data, hv, fetchNws, W.bind_eq, W.pure_eq, Json.falsy,
                            pyHasKey, liftE, c4Net, c4Pts, pySub, pyGetOpt, pyGetD, lookupKV, optFalsy,
                            hf, if_neg hcf, hs, setKeyE, c4Bundle, relCity, relState]
                        · rcases c with _ | cv <;> rcases s with _ | sv <;>
                            simp [get_forecast_data, hv, fetchNws, W.bind_eq, W.pure_eq, Json.falsy,
                              pyHasKey, liftE, c4Net, c4Pts, pySub, pyGetOpt, pyGetD, lookupKV, optFalsy,
                              hf, if_neg hcf, hs, setKeyE, c4Bundle, relCity, relState]
                      refine ⟨by simp [hres, c4Fails, hf, hlk], fun _ => by simpa using hres⟩

/-- C4 (witness): the family characterization applied at a concrete
successful configuration. -/
theorem c4_witness :
    (get_forecast_data
        (c4Net 39 (-76) (some "F1") none (some [("properties", .obj [])]))
        39 (-76)).1 =
      .ok (some (c4Bundle none [("properties", Json.obj [])])) :=
  (claim_C4.2.2.2 39 (-76) (some "F1") none (some [("properties", .obj [])])
    (by decide) (fun f hf => by injection hf with h; subst h; decide)).2
    (by simp [c4Fails, lookupKV])

end Weather
